import Mathlib

set_option maxHeartbeats 1000000

/-
Shallow embedding of `src/rust/tw_bitcoin/src/modules/legacy/scripts.rs`
(the legacy Bitcoin output-record builders of wallet-core) and of the
external collaborators the spec describes (key parser, output resolver,
inscription envelope encoder, wire encoder), which are outside the visible
source and are therefore modelled from the spec where needed.

Machine integers are modelled as `Nat`/`Int` with explicit `% 2 ^ 64`
arithmetic where Rust performs `as` casts.  A foreign `*const u8` pointer
plus length is modelled as `Option Bytes`: `none` is a null pointer (for
which `CByteArrayRef::as_slice` returns `None`), `some bs` a readable span.
A fallible step returns `Option`; `CByteArray::null()` is the `none`
outcome of the record-building stage, turned into `FfiResult.nullResult`
by the serialization stage.
-/

/-- A byte string; each entry is a byte value (intended `< 256`). -/
abbrev Bytes := List Nat

/-- Rust cast `i64 as u64`: two's-complement reinterpretation of a signed
64-bit value as unsigned (line 26 / 67 / 107 / 155 / 216 of the source,
`_satoshis as u64`). -/
def i64_as_u64 (v : Int) : Nat := (v % (2 : Int) ^ 64).toNat

/-- Rust cast `u64 as i64`: two's-complement reinterpretation of an
unsigned 64-bit value as signed (line 41 / 82 / 120 / 174 / 235 of the
source, `res.value as i64`). -/
def u64_as_i64 (n : Nat) : Int :=
  if n % 2 ^ 64 < 2 ^ 63 then ((n % 2 ^ 64 : Nat) : Int)
  else ((n % 2 ^ 64 : Nat) : Int) - 2 ^ 64

/-- The legacy wire record `LegacyProto::TransactionOutput`
(`value: i64, script: bytes, spendingScript: bytes`). -/
structure TransactionOutput where
  value : Int
  script : Bytes
  spendingScript : Bytes

/-- The external collaborators consumed by this core (spec §6): the
cryptographic primitives behind the key parser and the script resolver
(`hash160`, curve membership, the two Taproot tweak derivations) and the
wire encoder.  The claims are proved for every instance of this record. -/
structure Externals where
  hash160 : Bytes → Bytes
  onCurve : Bytes → Bool
  tweakKeyPath : Bytes → Bytes
  tweakScriptPath : Bytes → Bytes → Bytes
  serialize : TransactionOutput → Option Bytes

/-- Modelled from the spec: the Key Adapter (§4.1, `bitcoin::PublicKey::from_slice`,
whose source is outside `src/`).  A byte span parses iff it is a 33-byte
compressed encoding (prefix byte 2 or 3) or a 65-byte uncompressed
encoding (prefix byte 4) of a point on the curve; anything else is
`InvalidKeyEncoding`, modelled as `none`.  `to_bytes` re-serializes the
parsed key to the very bytes that were parsed, so the validated key is
the input span itself. -/
def publicKey_from_slice (onCurve : Bytes → Bool) (b : Bytes) : Option Bytes :=
  if b.length = 33 ∧ (b.head? = some 2 ∨ b.head? = some 3) ∧ onCurve b = true then some b
  else if b.length = 65 ∧ b.head? = some 4 ∧ onCurve b = true then some b
  else none

/-- Modelled from the spec: a minimal Bitcoin script data push
(length-prefixed; OP_PUSHDATA1 / OP_PUSHDATA2 for longer data). -/
def pushData (d : Bytes) : Bytes :=
  if d.length < 76 then d.length :: d
  else if d.length < 256 then 76 :: d.length :: d
  else 77 :: d.length % 256 :: d.length / 256 :: d

/-- Split a payload into chunks of at most 520 bytes (the single-push
limit of §4.3). -/
def chunks (d : Bytes) : List Bytes :=
  if d.length ≤ 520 then [d]
  else d.take 520 :: chunks (d.drop 520)
termination_by d.length
decreasing_by simp [List.length_drop]; omega

/-- Byte string of an ASCII/Unicode string (code points as byte values;
all strings used by this protocol are ASCII). -/
def strBytes (s : String) : Bytes := s.toList.map Char.toNat

/-- Modelled from the spec: the Inscription Envelope Encoder (§4.3, outside
`src/`).  Emits the recipient key push plus OP_CHECKSIG, then the
conditionally-unexecuted data envelope
`OP_FALSE OP_IF push("ord") push(content-type) OP_0 push(body, chunked) OP_ENDIF`. -/
def envelopeEncode (inscribeTo contentType body : Bytes) : Bytes :=
  pushData inscribeTo ++ [0xac] ++
    [0x00, 0x63] ++
    pushData (strBytes "ord") ++
    pushData contentType ++
    [0x00] ++
    (chunks body).flatMap pushData ++
    [0x68]

/-- Modelled from the spec: the canonical token-protocol body for a BRC20
transfer (§4.3), a JSON-like encoding of
\x7b p: brc-20, op: transfer, tick, amt \x7d. -/
def brc20BodyString (ticker : String) (amount : Nat) : String :=
  "\x7b\"p\":\"brc-20\",\"op\":\"transfer\",\"tick\":\"" ++ ticker ++
    "\",\"amt\":\"" ++ toString amount ++ "\"\x7d"

/-- Modelled from the spec: the fixed token-protocol content-type marker
used for BRC20 inscriptions (§4.3). -/
def brc20ContentType : Bytes := strBytes "text/plain;charset=utf-8"

/-- The reveal script of a BRC20 transfer inscription. -/
def brc20Reveal (pk : Bytes) (ticker : String) (amount : Nat) : Bytes :=
  envelopeEncode pk brc20ContentType (strBytes (brc20BodyString ticker amount))

/-- The reveal script of an NFT inscription. -/
def nftReveal (pk : Bytes) (mimeType : String) (payload : Bytes) : Bytes :=
  envelopeEncode pk (strBytes mimeType) payload

/-- The `oneof` variant of `Proto::mod_Output::OutputBuilder` as used by
the five entry points. -/
inductive OutputVariant where
  | p2pkh (pubkey : Bytes)
  | p2wpkh (pubkey : Bytes)
  | p2tr_key_path (pubkey : Bytes)
  | brc20_inscribe (inscribe_to : Bytes) (ticker : String) (transfer_amount : Nat)
  | ordinal_inscribe (inscribe_to : Bytes) (mime_type : String) (payload : Bytes)

/-- The `Proto::Output` message built by each entry point: a `u64` value
and an output-builder variant. -/
structure ProtoOutput where
  value : Nat
  variant : OutputVariant

/-- The resolver result `{value, script_pubkey, taproot_payload}`
consumed at lines 40-44 / 173-177 / 234-238 of the source. -/
structure UtxoResult where
  value : Nat
  script_pubkey : Bytes
  taproot_payload : Bytes

/-- Modelled from the spec: the output-intent-to-script resolver
(`OutputBuilder::utxo_from_proto`, collaborator (b) of §6, outside `src/`).
Per §4.2: P2PKH is `OP_DUP OP_HASH160 push20(hash160(pk)) OP_EQUALVERIFY
OP_CHECKSIG`; P2WPKH is `OP_0 push20(hash160(pk))`; P2TR key-path is
`OP_1 push32(keyPathTweak(pk))`; the two inscription intents commit to the
single-leaf reveal script via the script-path tweak, `OP_1
push32(scriptPathTweak(pk, reveal))`, and return the reveal script as
`taproot_payload`.  The BRC20 ticker has the protocol-fixed length 4
(`InvalidPayload` otherwise, modelled as `none`); the value is passed
through unchanged. -/
def utxo_from_proto (E : Externals) (o : ProtoOutput) : Option UtxoResult :=
  match o.variant with
  | .p2pkh pk =>
      some ⟨o.value, [0x76, 0xa9, 0x14] ++ E.hash160 pk ++ [0x88, 0xac], []⟩
  | .p2wpkh pk =>
      some ⟨o.value, [0x00, 0x14] ++ E.hash160 pk, []⟩
  | .p2tr_key_path pk =>
      some ⟨o.value, [0x51, 0x20] ++ E.tweakKeyPath pk, []⟩
  | .brc20_inscribe pk ticker amount =>
      if ticker.length = 4 then
        some ⟨o.value, [0x51, 0x20] ++ E.tweakScriptPath pk (brc20Reveal pk ticker amount),
              brc20Reveal pk ticker amount⟩
      else none
  | .ordinal_inscribe pk mime payload =>
      some ⟨o.value, [0x51, 0x20] ++ E.tweakScriptPath pk (nftReveal pk mime payload),
            nftReveal pk mime payload⟩

/-- `tw_build_p2pkh_script` (source lines 13-48), record-building stage:
borrow the pubkey span (null pointer → `none`, modelling
`CByteArrayRef::as_slice` / `try_or_else!` returning `CByteArray::null`),
parse the recipient key, build the `Proto::Output` with `value = _satoshis
as u64`, resolve it, and package `LegacyProto::TransactionOutput` with
`value = res.value as i64`, `script = res.script_pubkey` and an empty
`spendingScript` (`Default::default()`). -/
def tw_build_p2pkh_script (E : Externals) (satoshis : Int) (pubkey : Option Bytes) :
    Option TransactionOutput :=
  match pubkey with
  | none => none
  | some slice =>
    match publicKey_from_slice E.onCurve slice with
    | none => none
    | some recipient =>
      match utxo_from_proto E ⟨i64_as_u64 satoshis, .p2pkh recipient⟩ with
      | none => none
      | some res => some ⟨u64_as_i64 res.value, res.script_pubkey, []⟩

/-- `tw_build_p2wpkh_script` (source lines 53-89), record-building stage. -/
def tw_build_p2wpkh_script (E : Externals) (satoshis : Int) (pubkey : Option Bytes) :
    Option TransactionOutput :=
  match pubkey with
  | none => none
  | some slice =>
    match publicKey_from_slice E.onCurve slice with
    | none => none
    | some recipient =>
      match utxo_from_proto E ⟨i64_as_u64 satoshis, .p2wpkh recipient⟩ with
      | none => none
      | some res => some ⟨u64_as_i64 res.value, res.script_pubkey, []⟩

/-- `tw_build_p2tr_key_path_script` (source lines 94-127), record-building
stage. -/
def tw_build_p2tr_key_path_script (E : Externals) (satoshis : Int) (pubkey : Option Bytes) :
    Option TransactionOutput :=
  match pubkey with
  | none => none
  | some slice =>
    match publicKey_from_slice E.onCurve slice with
    | none => none
    | some recipient =>
      match utxo_from_proto E ⟨i64_as_u64 satoshis, .p2tr_key_path recipient⟩ with
      | none => none
      | some res => some ⟨u64_as_i64 res.value, res.script_pubkey, []⟩

/-- `tw_build_brc20_transfer_inscription` (source lines 132-181),
record-building stage.  `ticker : Option String` models
`CStr::from_ptr(ticker).to_str()`: `none` is a non-UTF-8 C string (the
`Err` arm at line 151).  As in the source, the pubkey span and key are
converted before the ticker; `spendingScript = res.taproot_payload`. -/
def tw_build_brc20_transfer_inscription (E : Externals) (ticker : Option String)
    (value : Nat) (satoshis : Int) (pubkey : Option Bytes) : Option TransactionOutput :=
  match pubkey with
  | none => none
  | some slice =>
    match publicKey_from_slice E.onCurve slice with
    | none => none
    | some recipient =>
      match ticker with
      | none => none
      | some t =>
        match utxo_from_proto E ⟨i64_as_u64 satoshis, .brc20_inscribe recipient t value⟩ with
        | none => none
        | some res => some ⟨u64_as_i64 res.value, res.script_pubkey, res.taproot_payload⟩

/-- `tw_bitcoin_build_nft_inscription` (source lines 186-242),
record-building stage.  As in the source, the MIME type is converted
first, then the payload span, then the pubkey span and key;
`spendingScript = res.taproot_payload`. -/
def tw_bitcoin_build_nft_inscription (E : Externals) (mimeType : Option String)
    (payload : Option Bytes) (satoshis : Int) (pubkey : Option Bytes) :
    Option TransactionOutput :=
  match mimeType with
  | none => none
  | some mt =>
    match payload with
    | none => none
    | some pl =>
      match pubkey with
      | none => none
      | some slice =>
        match publicKey_from_slice E.onCurve slice with
        | none => none
        | some recipient =>
          match utxo_from_proto E ⟨i64_as_u64 satoshis, .ordinal_inscribe recipient mt pl⟩ with
          | none => none
          | some res => some ⟨u64_as_i64 res.value, res.script_pubkey, res.taproot_payload⟩

/-- Caller-visible outcome of a whole FFI call: a serialized buffer, the
null byte array (`CByteArray::null()`), or an aborted call (the `.expect`
panic at the serialization line). -/
inductive FfiResult where
  | ok (bytes : Bytes)
  | nullResult
  | panic

/-- The serialization stage shared by all five entry points (source lines
46-47 etc.): a failed record-building stage surfaces as the null byte
array; a built record is wire-encoded, and `.expect` aborts the call when
the external encoder fails. -/
def serializeStep (E : Externals) (r : Option TransactionOutput) : FfiResult :=
  match r with
  | none => .nullResult
  | some out =>
    match E.serialize out with
    | some b => .ok b
    | none => .panic

/-- `tw_build_p2pkh_script`, whole FFI call. -/
def tw_build_p2pkh_script_ffi (E : Externals) (satoshis : Int) (pubkey : Option Bytes) :
    FfiResult :=
  serializeStep E (tw_build_p2pkh_script E satoshis pubkey)

/-- `tw_build_p2wpkh_script`, whole FFI call. -/
def tw_build_p2wpkh_script_ffi (E : Externals) (satoshis : Int) (pubkey : Option Bytes) :
    FfiResult :=
  serializeStep E (tw_build_p2wpkh_script E satoshis pubkey)

/-- `tw_build_p2tr_key_path_script`, whole FFI call. -/
def tw_build_p2tr_key_path_script_ffi (E : Externals) (satoshis : Int)
    (pubkey : Option Bytes) : FfiResult :=
  serializeStep E (tw_build_p2tr_key_path_script E satoshis pubkey)

/-- `tw_build_brc20_transfer_inscription`, whole FFI call. -/
def tw_build_brc20_transfer_inscription_ffi (E : Externals) (ticker : Option String)
    (value : Nat) (satoshis : Int) (pubkey : Option Bytes) : FfiResult :=
  serializeStep E (tw_build_brc20_transfer_inscription E ticker value satoshis pubkey)

/-- `tw_bitcoin_build_nft_inscription`, whole FFI call. -/
def tw_bitcoin_build_nft_inscription_ffi (E : Externals) (mimeType : Option String)
    (payload : Option Bytes) (satoshis : Int) (pubkey : Option Bytes) : FfiResult :=
  serializeStep E (tw_bitcoin_build_nft_inscription E mimeType payload satoshis pubkey)

/-- A concrete instance of the external collaborators, used to evaluate
the embedding at specific inputs (the claim theorems hold for every
instance). -/
def testE : Externals :=
  ⟨fun _ => List.replicate 20 7,
   fun _ => true,
   fun _ => List.replicate 32 9,
   fun _ _ => List.replicate 32 5,
   fun out => some (out.script ++ out.spendingScript)⟩

/-- A concrete well-formed compressed public-key span: prefix byte 2
followed by 32 bytes. -/
def testKey : Bytes := 2 :: List.replicate 32 1

theorem i64_u64_roundtrip (v : Int) (h1 : -(2 : Int) ^ 63 ≤ v) (h2 : v < 2 ^ 63) :
    u64_as_i64 (i64_as_u64 v) = v := by
  simp only [u64_as_i64, i64_as_u64]
  split <;> omega

theorem publicKey_from_slice_eq (c : Bytes → Bool) (b k : Bytes)
    (h : publicKey_from_slice c b = some k) : k = b := by
  unfold publicKey_from_slice at h
  split at h
  · exact (Option.some.inj h).symm
  · split at h
    · exact (Option.some.inj h).symm
    · cases h

theorem pushData_ne_nil (d : Bytes) : pushData d ≠ [] := by
  unfold pushData
  split
  · simp
  · split <;> simp

theorem envelopeEncode_ne_nil (a b c : Bytes) : envelopeEncode a b c ≠ [] := by
  unfold envelopeEncode
  intro h
  exact pushData_ne_nil a (by simpa using congrArg (List.take (pushData a).length) h)

theorem p2pkh_eval (E : Externals) (v : Int) (pk : Bytes)
    (hk : publicKey_from_slice E.onCurve pk = some pk) :
    tw_build_p2pkh_script E v (some pk) =
      some ⟨u64_as_i64 (i64_as_u64 v),
            [0x76, 0xa9, 0x14] ++ E.hash160 pk ++ [0x88, 0xac], []⟩ := by
  simp only [tw_build_p2pkh_script, utxo_from_proto, hk]

theorem p2wpkh_eval (E : Externals) (v : Int) (pk : Bytes)
    (hk : publicKey_from_slice E.onCurve pk = some pk) :
    tw_build_p2wpkh_script E v (some pk) =
      some ⟨u64_as_i64 (i64_as_u64 v), [0x00, 0x14] ++ E.hash160 pk, []⟩ := by
  simp only [tw_build_p2wpkh_script, utxo_from_proto, hk]

theorem p2tr_eval (E : Externals) (v : Int) (pk : Bytes)
    (hk : publicKey_from_slice E.onCurve pk = some pk) :
    tw_build_p2tr_key_path_script E v (some pk) =
      some ⟨u64_as_i64 (i64_as_u64 v), [0x51, 0x20] ++ E.tweakKeyPath pk, []⟩ := by
  simp only [tw_build_p2tr_key_path_script, utxo_from_proto, hk]

theorem brc20_eval (E : Externals) (v : Int) (pk : Bytes) (t : String) (a : Nat)
    (hk : publicKey_from_slice E.onCurve pk = some pk) (ht : t.length = 4) :
    tw_build_brc20_transfer_inscription E (some t) a v (some pk) =
      some ⟨u64_as_i64 (i64_as_u64 v),
            [0x51, 0x20] ++ E.tweakScriptPath pk (brc20Reveal pk t a),
            brc20Reveal pk t a⟩ := by
  simp only [tw_build_brc20_transfer_inscription, utxo_from_proto, hk]
  simp [ht]

theorem nft_eval (E : Externals) (v : Int) (pk pl : Bytes) (mt : String)
    (hk : publicKey_from_slice E.onCurve pk = some pk) :
    tw_bitcoin_build_nft_inscription E (some mt) (some pl) v (some pk) =
      some ⟨u64_as_i64 (i64_as_u64 v),
            [0x51, 0x20] ++ E.tweakScriptPath pk (nftReveal pk mt pl),
            nftReveal pk mt pl⟩ := by
  simp only [tw_bitcoin_build_nft_inscription, utxo_from_proto, hk]

theorem testKey_valid : publicKey_from_slice testE.onCurve testKey = some testKey := by
  decide

/-- C1: the claimed `ValueOverflow` rejection does not exist in the code.
At `_satoshis = -1` the intermediate unsigned value of the record path is
`2 ^ 64 - 1`, which does not fit the record's signed 64-bit `value` field,
yet the P2PKH call succeeds with the sign silently reinterpreted back to
`-1` instead of failing with a null result. -/
theorem C1_no_value_overflow_check :
    i64_as_u64 (-1) = 2 ^ 64 - 1 ∧
    tw_build_p2pkh_script testE (-1) (some testKey) =
      some ⟨-1, [0x76, 0xa9, 0x14] ++ testE.hash160 testKey ++ [0x88, 0xac], []⟩ ∧
    tw_build_p2pkh_script_ffi testE (-1) (some testKey) ≠ .nullResult := by
  refine ⟨by decide, ?_, ?_⟩
  · rw [p2pkh_eval testE (-1) testKey testKey_valid,
      show u64_as_i64 (i64_as_u64 (-1)) = -1 from by decide]
  · unfold tw_build_p2pkh_script_ffi
    rw [p2pkh_eval testE (-1) testKey testKey_valid]
    simp [serializeStep, testE]

/-- C2: for every successful call, the record's `spendingScript` holds the
Taproot reveal script exactly for the two inscription intents (BRC20
transfer, NFT inscription), where it is the non-empty envelope script; for
the three base intents it is the empty byte string. -/
theorem C2_spendingScript_iff_inscription (E : Externals) (v : Int) (pk pl : Bytes)
    (t mt : String) (a : Nat)
    (hk : publicKey_from_slice E.onCurve pk = some pk) (ht : t.length = 4) :
    (tw_build_p2pkh_script E v (some pk)).map TransactionOutput.spendingScript = some [] ∧
    (tw_build_p2wpkh_script E v (some pk)).map TransactionOutput.spendingScript = some [] ∧
    (tw_build_p2tr_key_path_script E v (some pk)).map TransactionOutput.spendingScript =
      some [] ∧
    (tw_build_brc20_transfer_inscription E (some t) a v (some pk)).map
      TransactionOutput.spendingScript = some (brc20Reveal pk t a) ∧
    brc20Reveal pk t a ≠ [] ∧
    (tw_bitcoin_build_nft_inscription E (some mt) (some pl) v (some pk)).map
      TransactionOutput.spendingScript = some (nftReveal pk mt pl) ∧
    nftReveal pk mt pl ≠ [] := by
  rw [p2pkh_eval E v pk hk, p2wpkh_eval E v pk hk, p2tr_eval E v pk hk,
      brc20_eval E v pk t a hk ht, nft_eval E v pk pl mt hk]
  exact ⟨rfl, rfl, rfl, rfl, envelopeEncode_ne_nil _ _ _, rfl, envelopeEncode_ne_nil _ _ _⟩

theorem C2_witness :
    (tw_build_p2pkh_script testE 5 (some testKey)).map TransactionOutput.spendingScript =
      some [] ∧
    (tw_build_p2wpkh_script testE 5 (some testKey)).map TransactionOutput.spendingScript =
      some [] ∧
    (tw_build_p2tr_key_path_script testE 5 (some testKey)).map
      TransactionOutput.spendingScript = some [] ∧
    (tw_build_brc20_transfer_inscription testE (some "ordi") 7 5 (some testKey)).map
      TransactionOutput.spendingScript = some (brc20Reveal testKey "ordi" 7) ∧
    brc20Reveal testKey "ordi" 7 ≠ [] ∧
    (tw_bitcoin_build_nft_inscription testE (some "text") (some [3]) 5 (some testKey)).map
      TransactionOutput.spendingScript = some (nftReveal testKey "text" [3]) ∧
    nftReveal testKey "text" [3] ≠ [] :=
  C2_spendingScript_iff_inscription testE 5 testKey [3] "ordi" "text" 7 (by decide) (by decide)

/-- C3: per entry point, whenever the record-building stage (pointer/length
validation, key parsing, string conversion, or the resolver) fails on any
input, the caller-visible FFI result of that entry point is the null byte
array. -/
theorem C3_failure_yields_null (E : Externals) (v : Int) (kp plp : Option Bytes)
    (t mt : Option String) (a : Nat) :
    (tw_build_p2pkh_script E v kp = none →
      tw_build_p2pkh_script_ffi E v kp = .nullResult) ∧
    (tw_build_p2wpkh_script E v kp = none →
      tw_build_p2wpkh_script_ffi E v kp = .nullResult) ∧
    (tw_build_p2tr_key_path_script E v kp = none →
      tw_build_p2tr_key_path_script_ffi E v kp = .nullResult) ∧
    (tw_build_brc20_transfer_inscription E t a v kp = none →
      tw_build_brc20_transfer_inscription_ffi E t a v kp = .nullResult) ∧
    (tw_bitcoin_build_nft_inscription E mt plp v kp = none →
      tw_bitcoin_build_nft_inscription_ffi E mt plp v kp = .nullResult) := by
  refine ⟨fun h => ?_, fun h => ?_, fun h => ?_, fun h => ?_, fun h => ?_⟩
  · unfold tw_build_p2pkh_script_ffi; rw [h]; rfl
  · unfold tw_build_p2wpkh_script_ffi; rw [h]; rfl
  · unfold tw_build_p2tr_key_path_script_ffi; rw [h]; rfl
  · unfold tw_build_brc20_transfer_inscription_ffi; rw [h]; rfl
  · unfold tw_bitcoin_build_nft_inscription_ffi; rw [h]; rfl

theorem serializeStep_panic_iff (E : Externals) (o : Option TransactionOutput) :
    serializeStep E o = .panic ↔ ∃ r, o = some r ∧ E.serialize r = none := by
  cases o with
  | none => simp [serializeStep]
  | some out =>
    unfold serializeStep
    cases hs : E.serialize out <;> simp [hs]

/-- C4: for each entry point, the whole FFI call aborts (panics) exactly
when the record-building stage succeeded and the external wire encoder
failed on the built record; every record-building failure is instead
recovered into the null byte array and never propagates. -/
theorem C4_panic_only_on_serialization (E : Externals) (v : Int) (kp plp : Option Bytes)
    (t mt : Option String) (a : Nat) :
    (tw_build_p2pkh_script_ffi E v kp = .panic ↔
      ∃ r, tw_build_p2pkh_script E v kp = some r ∧ E.serialize r = none) ∧
    (tw_build_p2pkh_script E v kp = none → tw_build_p2pkh_script_ffi E v kp = .nullResult) ∧
    (tw_build_p2wpkh_script_ffi E v kp = .panic ↔
      ∃ r, tw_build_p2wpkh_script E v kp = some r ∧ E.serialize r = none) ∧
    (tw_build_p2wpkh_script E v kp = none → tw_build_p2wpkh_script_ffi E v kp = .nullResult) ∧
    (tw_build_p2tr_key_path_script_ffi E v kp = .panic ↔
      ∃ r, tw_build_p2tr_key_path_script E v kp = some r ∧ E.serialize r = none) ∧
    (tw_build_p2tr_key_path_script E v kp = none →
      tw_build_p2tr_key_path_script_ffi E v kp = .nullResult) ∧
    (tw_build_brc20_transfer_inscription_ffi E t a v kp = .panic ↔
      ∃ r, tw_build_brc20_transfer_inscription E t a v kp = some r ∧ E.serialize r = none) ∧
    (tw_build_brc20_transfer_inscription E t a v kp = none →
      tw_build_brc20_transfer_inscription_ffi E t a v kp = .nullResult) ∧
    (tw_bitcoin_build_nft_inscription_ffi E mt plp v kp = .panic ↔
      ∃ r, tw_bitcoin_build_nft_inscription E mt plp v kp = some r ∧ E.serialize r = none) ∧
    (tw_bitcoin_build_nft_inscription E mt plp v kp = none →
      tw_bitcoin_build_nft_inscription_ffi E mt plp v kp = .nullResult) := by
  refine ⟨serializeStep_panic_iff E _, fun h => ?_, serializeStep_panic_iff E _, fun h => ?_,
    serializeStep_panic_iff E _, fun h => ?_, serializeStep_panic_iff E _, fun h => ?_,
    serializeStep_panic_iff E _, fun h => ?_⟩
  · unfold tw_build_p2pkh_script_ffi; rw [h]; rfl
  · unfold tw_build_p2wpkh_script_ffi; rw [h]; rfl
  · unfold tw_build_p2tr_key_path_script_ffi; rw [h]; rfl
  · unfold tw_build_brc20_transfer_inscription_ffi; rw [h]; rfl
  · unfold tw_bitcoin_build_nft_inscription_ffi; rw [h]; rfl

/-- C5: for every valid public key, the P2PKH entry point at value 100000
builds exactly the record with `value = 100000`, the 25-byte script
`OP_DUP OP_HASH160 push20(hash160(pk)) OP_EQUALVERIFY OP_CHECKSIG`
(hex `76a914<hash>88ac`), and an empty `spendingScript`. -/
theorem C5_p2pkh_scenario (E : Externals) (pk : Bytes)
    (hk : publicKey_from_slice E.onCurve pk = some pk)
    (hh : (E.hash160 pk).length = 20) :
    tw_build_p2pkh_script E 100000 (some pk) =
      some ⟨100000, [0x76, 0xa9, 0x14] ++ E.hash160 pk ++ [0x88, 0xac], []⟩ ∧
    ([0x76, 0xa9, 0x14] ++ E.hash160 pk ++ [0x88, 0xac]).length = 25 := by
  constructor
  · rw [p2pkh_eval E 100000 pk hk,
      show u64_as_i64 (i64_as_u64 100000) = 100000 from by decide]
  · simp [hh]

theorem C5_witness :
    tw_build_p2pkh_script testE 100000 (some testKey) =
      some ⟨100000, [0x76, 0xa9, 0x14] ++ testE.hash160 testKey ++ [0x88, 0xac], []⟩ ∧
    ([0x76, 0xa9, 0x14] ++ testE.hash160 testKey ++ [0x88, 0xac]).length = 25 :=
  C5_p2pkh_scenario testE testKey (by decide) (by decide)

/-- C6: for every successful inscription call, recomputing the single-leaf
Taproot script-path tweak from the recipient key and the reveal script
recovered from `spendingScript` re-derives exactly the 32-byte output key
embedded in the record's script (the bytes after `OP_1 0x20`). -/
theorem C6_taproot_roundtrip (E : Externals) (v : Int) (pk pl : Bytes) (t mt : String)
    (a : Nat)
    (hk : publicKey_from_slice E.onCurve pk = some pk) (ht : t.length = 4)
    (h32a : (E.tweakScriptPath pk (brc20Reveal pk t a)).length = 32)
    (h32b : (E.tweakScriptPath pk (nftReveal pk mt pl)).length = 32) :
    ((tw_build_brc20_transfer_inscription E (some t) a v (some pk)).map
        (fun r => r.script.drop 2) =
      (tw_build_brc20_transfer_inscription E (some t) a v (some pk)).map
        (fun r => E.tweakScriptPath pk r.spendingScript)) ∧
    ((tw_build_brc20_transfer_inscription E (some t) a v (some pk)).map
        (fun r => (r.script.drop 2).length) = some 32) ∧
    ((tw_bitcoin_build_nft_inscription E (some mt) (some pl) v (some pk)).map
        (fun r => r.script.drop 2) =
      (tw_bitcoin_build_nft_inscription E (some mt) (some pl) v (some pk)).map
        (fun r => E.tweakScriptPath pk r.spendingScript)) ∧
    ((tw_bitcoin_build_nft_inscription E (some mt) (some pl) v (some pk)).map
        (fun r => (r.script.drop 2).length) = some 32) := by
  rw [brc20_eval E v pk t a hk ht, nft_eval E v pk pl mt hk]
  refine ⟨rfl, ?_, rfl, ?_⟩ <;> simp [h32a, h32b]

theorem C6_witness :
    ((tw_build_brc20_transfer_inscription testE (some "ordi") 100 9 (some testKey)).map
        (fun r => r.script.drop 2) =
      (tw_build_brc20_transfer_inscription testE (some "ordi") 100 9 (some testKey)).map
        (fun r => testE.tweakScriptPath testKey r.spendingScript)) ∧
    ((tw_build_brc20_transfer_inscription testE (some "ordi") 100 9 (some testKey)).map
        (fun r => (r.script.drop 2).length) = some 32) ∧
    ((tw_bitcoin_build_nft_inscription testE (some "image/png") (some [1, 2, 3]) 9
        (some testKey)).map (fun r => r.script.drop 2) =
      (tw_bitcoin_build_nft_inscription testE (some "image/png") (some [1, 2, 3]) 9
        (some testKey)).map (fun r => testE.tweakScriptPath testKey r.spendingScript)) ∧
    ((tw_bitcoin_build_nft_inscription testE (some "image/png") (some [1, 2, 3]) 9
        (some testKey)).map (fun r => (r.script.drop 2).length) = some 32) :=
  C6_taproot_roundtrip testE 9 testKey [1, 2, 3] "ordi" "image/png" 100
    (by decide) (by decide) (by decide) (by decide)

/-- C7: for every entry point, a pubkey byte span the key adapter rejects
(wrong length, bad prefix byte, or not on the curve — e.g. all-zero
bytes) makes the whole FFI call return the null byte array. -/
theorem C7_invalid_key_null (E : Externals) (v : Int) (pk pl : Bytes) (t mt : String)
    (a : Nat)
    (hk : publicKey_from_slice E.onCurve pk = none) :
    tw_build_p2pkh_script_ffi E v (some pk) = .nullResult ∧
    tw_build_p2wpkh_script_ffi E v (some pk) = .nullResult ∧
    tw_build_p2tr_key_path_script_ffi E v (some pk) = .nullResult ∧
    tw_build_brc20_transfer_inscription_ffi E (some t) a v (some pk) = .nullResult ∧
    tw_bitcoin_build_nft_inscription_ffi E (some mt) (some pl) v (some pk) = .nullResult := by
  refine ⟨?_, ?_, ?_, ?_, ?_⟩ <;>
    simp [tw_build_p2pkh_script_ffi, tw_build_p2wpkh_script_ffi,
      tw_build_p2tr_key_path_script_ffi, tw_build_brc20_transfer_inscription_ffi,
      tw_bitcoin_build_nft_inscription_ffi, tw_build_p2pkh_script, tw_build_p2wpkh_script,
      tw_build_p2tr_key_path_script, tw_build_brc20_transfer_inscription,
      tw_bitcoin_build_nft_inscription, serializeStep, hk]

theorem C7_witness :
    tw_build_p2pkh_script_ffi testE 3 (some (List.replicate 33 0)) = .nullResult ∧
    tw_build_p2wpkh_script_ffi testE 3 (some (List.replicate 33 0)) = .nullResult ∧
    tw_build_p2tr_key_path_script_ffi testE 3 (some (List.replicate 33 0)) = .nullResult ∧
    tw_build_brc20_transfer_inscription_ffi testE (some "ordi") 1 3
      (some (List.replicate 33 0)) = .nullResult ∧
    tw_bitcoin_build_nft_inscription_ffi testE (some "text") (some [1]) 3
      (some (List.replicate 33 0)) = .nullResult :=
  C7_invalid_key_null testE 3 (List.replicate 33 0) [1] "ordi" "text" 1 (by decide)

/-- C8: every entry point is deterministic — the same inputs always give
the identical result (each embedded entry point is a pure function). -/
theorem C8_deterministic (E : Externals) (v : Int) (kp plp : Option Bytes)
    (t mt : Option String) (a : Nat) :
    tw_build_p2pkh_script_ffi E v kp = tw_build_p2pkh_script_ffi E v kp ∧
    tw_build_p2wpkh_script_ffi E v kp = tw_build_p2wpkh_script_ffi E v kp ∧
    tw_build_p2tr_key_path_script_ffi E v kp = tw_build_p2tr_key_path_script_ffi E v kp ∧
    tw_build_brc20_transfer_inscription_ffi E t a v kp =
      tw_build_brc20_transfer_inscription_ffi E t a v kp ∧
    tw_bitcoin_build_nft_inscription_ffi E mt plp v kp =
      tw_bitcoin_build_nft_inscription_ffi E mt plp v kp :=
  ⟨rfl, rfl, rfl, rfl, rfl⟩

/-- C9: the record's `value` field arises from reinterpreting `_satoshis`
as `u64` and back to `i64`; this composition is the identity on the whole
signed 64-bit range, so every input value — negative ones included —
appears bit-for-bit unchanged in the output record and no overflow
rejection exists on this path. -/
theorem C9_value_reinterpretation (E : Externals) (v : Int) (pk pl : Bytes)
    (t mt : String) (a : Nat)
    (hv1 : -(2 : Int) ^ 63 ≤ v) (hv2 : v < 2 ^ 63)
    (hk : publicKey_from_slice E.onCurve pk = some pk) (ht : t.length = 4) :
    u64_as_i64 (i64_as_u64 v) = v ∧
    (tw_build_p2pkh_script E v (some pk)).map TransactionOutput.value = some v ∧
    (tw_build_p2wpkh_script E v (some pk)).map TransactionOutput.value = some v ∧
    (tw_build_p2tr_key_path_script E v (some pk)).map TransactionOutput.value = some v ∧
    (tw_build_brc20_transfer_inscription E (some t) a v (some pk)).map
      TransactionOutput.value = some v ∧
    (tw_bitcoin_build_nft_inscription E (some mt) (some pl) v (some pk)).map
      TransactionOutput.value = some v := by
  have hr := i64_u64_roundtrip v hv1 hv2
  rw [p2pkh_eval E v pk hk, p2wpkh_eval E v pk hk, p2tr_eval E v pk hk,
      brc20_eval E v pk t a hk ht, nft_eval E v pk pl mt hk]
  exact ⟨hr, by simp [hr], by simp [hr], by simp [hr], by simp [hr], by simp [hr]⟩

theorem C9_witness :
    u64_as_i64 (i64_as_u64 (-1)) = -1 ∧
    (tw_build_p2pkh_script testE (-1) (some testKey)).map TransactionOutput.value =
      some (-1) ∧
    (tw_build_p2wpkh_script testE (-1) (some testKey)).map TransactionOutput.value =
      some (-1) ∧
    (tw_build_p2tr_key_path_script testE (-1) (some testKey)).map TransactionOutput.value =
      some (-1) ∧
    (tw_build_brc20_transfer_inscription testE (some "ordi") 0 (-1) (some testKey)).map
      TransactionOutput.value = some (-1) ∧
    (tw_bitcoin_build_nft_inscription testE (some "text") (some [3]) (-1)
      (some testKey)).map TransactionOutput.value = some (-1) :=
  C9_value_reinterpretation testE (-1) testKey [3] "ordi" "text" 0 (by decide) (by decide)
    (by decide) (by decide)

/-- C10: a null pubkey pointer (and, for the NFT entry point, a null
payload pointer) is handled: the borrowed span cannot be formed, and the
call returns the null byte array. -/
theorem C10_null_pointer_null_result (E : Externals) (v : Int) (kp : Option Bytes)
    (t mt : Option String) (a : Nat) :
    tw_build_p2pkh_script_ffi E v none = .nullResult ∧
    tw_build_p2wpkh_script_ffi E v none = .nullResult ∧
    tw_build_p2tr_key_path_script_ffi E v none = .nullResult ∧
    tw_build_brc20_transfer_inscription_ffi E t a v none = .nullResult ∧
    tw_bitcoin_build_nft_inscription_ffi E mt none v kp = .nullResult := by
  refine ⟨rfl, rfl, rfl, ?_, ?_⟩
  · rfl
  · cases mt <;> rfl
